import Mathlib

/-!
Verification of the go-password-manager core against its specification.

The Go sources are shallowly embedded: bytes are `Nat` values below 256,
Go `uint8`/`uint32` conversions become `% 2^8` / `% 2^32`, Go multiple
return values `(a, b, err)` become tuples with `Option` components, and
external collaborators (the PostgreSQL pool, JSON parsing, the PBKDF2
primitive) are passed in as explicit parameters, mirroring their call
interfaces.
-/

namespace PasswordManager

/-! ## Frame codec (src/internal/common/protocol/protocol.go) -/

/-- Message type codes from src/internal/common/protocol/types.go. -/
def MsgTypeAuthRequest : Nat := 0x01
def MsgTypeAuthResponse : Nat := 0x02
def MsgTypeRegisterRequest : Nat := 0x03
def MsgTypeRegisterResponse : Nat := 0x04
def MsgTypeSyncRequest : Nat := 0x05
def MsgTypeSyncResponse : Nat := 0x06
def MsgTypeDataRequest : Nat := 0x07
def MsgTypeDataResponse : Nat := 0x08
def MsgTypeSaveDataRequest : Nat := 0x09
def MsgTypeSaveDataResponse : Nat := 0x0A
def MsgTypeDeleteDataRequest : Nat := 0x0B
def MsgTypeDeleteDataResponse : Nat := 0x0C
def MsgTypeUpdateDataRequest : Nat := 0x0D
def MsgTypeUpdateDataResponse : Nat := 0x0E
def MsgTypeDownloadRequest : Nat := 0x0F
def MsgTypeDownloadResponse : Nat := 0x10
def MsgTypeError : Nat := 0xFF

/-- `MessageHeader` from types.go: Type/Version are uint8, MessageID/Length
are uint32; all modelled as `Nat` kept in range by the codec.  Field names
are lower-cased because `Type` is reserved in Lean. -/
structure MessageHeader where
  type : Nat
  version : Nat
  messageID : Nat
  length : Nat
  deriving DecidableEq, Repr

/-- `binary.BigEndian.PutUint32`: the four big-endian bytes of `n`
(taken modulo 2^32, as the Go `uint32` argument type forces). -/
def putUint32BE (n : Nat) : List Nat :=
  [n / 2 ^ 24 % 256, n / 2 ^ 16 % 256, n / 2 ^ 8 % 256, n % 256]

/-- `binary.BigEndian.Uint32`: recombine four big-endian bytes. -/
def readUint32BE (b0 b1 b2 b3 : Nat) : Nat :=
  b0 * 2 ^ 24 + b1 * 2 ^ 16 + b2 * 2 ^ 8 + b3

/-- `ErrInvalidMessage` from types.go. -/
def ErrInvalidMessage : String := "invalid message"

/-- `SerializeMessage(msgType uint8, messageID uint32, data []byte) []byte`:
10-byte header (type, version 1, big-endian message id and length) followed
by the payload.  The Go argument types force `msgType` and `messageID`
modulo 2^8 / 2^32, and `uint32(len(data))` truncates the length. -/
def SerializeMessage (msgType messageID : Nat) (data : List Nat) : List Nat :=
  msgType % 256 :: 1 :: (putUint32BE (messageID % 2 ^ 32) ++
    (putUint32BE (data.length % 2 ^ 32) ++ data))

/-- `DeserializeMessage(data []byte) (MessageHeader, []byte, error)`:
errors on inputs shorter than 10 bytes; if fewer than `10 + Length` bytes
are present it returns the header with a nil payload and nil error;
otherwise it returns the header and `data[10 : 10+Length]`. -/
def DeserializeMessage (data : List Nat) :
    MessageHeader × Option (List Nat) × Option String :=
  if data.length < 10 then
    (⟨0, 0, 0, 0⟩, none, some ErrInvalidMessage)
  else
    let header : MessageHeader :=
      { type := data.getD 0 0
        version := data.getD 1 0
        messageID := readUint32BE (data.getD 2 0) (data.getD 3 0)
          (data.getD 4 0) (data.getD 5 0)
        length := readUint32BE (data.getD 6 0) (data.getD 7 0)
          (data.getD 8 0) (data.getD 9 0) }
    if data.length < 10 + header.length then
      (header, none, none)
    else
      (header, some ((data.drop 10).take header.length), none)

/-- `DeserializeHeader(data []byte) (MessageHeader, error)`: parses just the
10-byte header, erroring on shorter input. -/
def DeserializeHeader (data : List Nat) : MessageHeader × Option String :=
  if data.length < 10 then
    (⟨0, 0, 0, 0⟩, some ErrInvalidMessage)
  else
    ({ type := data.getD 0 0
       version := data.getD 1 0
       messageID := readUint32BE (data.getD 2 0) (data.getD 3 0)
         (data.getD 4 0) (data.getD 5 0)
       length := readUint32BE (data.getD 6 0) (data.getD 7 0)
         (data.getD 8 0) (data.getD 9 0) }, none)

theorem readUint32BE_putUint32BE (n : Nat) (h : n < 2 ^ 32) :
    readUint32BE (n / 2 ^ 24 % 256) (n / 2 ^ 16 % 256) (n / 2 ^ 8 % 256)
      (n % 256) = n := by
  have h24 : n / 2 ^ 24 % 256 = n / 2 ^ 24 := by
    apply Nat.mod_eq_of_lt
    exact Nat.div_lt_of_lt_mul (by omega)
  have h16 : n / 2 ^ 16 % 256 = n % 2 ^ 24 / 2 ^ 16 := by
    have := Nat.mod_mul_right_div_self n (2 ^ 16) 256
    simpa using this.symm
  have h8 : n / 2 ^ 8 % 256 = n % 2 ^ 16 / 2 ^ 8 := by
    have := Nat.mod_mul_right_div_self n (2 ^ 8) 256
    simpa using this.symm
  rw [readUint32BE, h24, h16, h8]
  have e24 := Nat.div_add_mod n (2 ^ 24)
  have e16 := Nat.div_add_mod (n % 2 ^ 24) (2 ^ 16)
  have e8 := Nat.div_add_mod (n % 2 ^ 16) (2 ^ 8)
  have m16 : n % 2 ^ 24 % 2 ^ 16 = n % 2 ^ 16 := by
    apply Nat.mod_mod_of_dvd
    exact ⟨2 ^ 8, rfl⟩
  have m8 : n % 2 ^ 16 % 2 ^ 8 = n % 2 ^ 8 := by
    apply Nat.mod_mod_of_dvd
    exact ⟨2 ^ 8, rfl⟩
  rw [m16] at e16
  rw [m8] at e8
  norm_num at e24 e16 e8 ⊢
  omega

theorem serializeMessage_length (msgType messageID : Nat) (data : List Nat) :
    (SerializeMessage msgType messageID data).length = 10 + data.length := by
  simp [SerializeMessage, putUint32BE]
  omega

theorem DeserializeMessage_SerializeMessage (t id : Nat) (data : List Nat)
    (ht : t < 256) (hid : id < 2 ^ 32) (hlen : data.length < 2 ^ 32) :
    DeserializeMessage (SerializeMessage t id data) =
      ({ type := t, version := 1, messageID := id, length := data.length },
        some data, none) := by
  have hmod : t % 256 = t := Nat.mod_eq_of_lt ht
  have hidm : id % 2 ^ 32 = id := Nat.mod_eq_of_lt hid
  have hlenm : data.length % 2 ^ 32 = data.length := Nat.mod_eq_of_lt hlen
  have hid4 := readUint32BE_putUint32BE id hid
  have hlen4 := readUint32BE_putUint32BE data.length hlen
  simp only [SerializeMessage, DeserializeMessage, putUint32BE, hmod, hidm,
    hlenm, List.cons_append, List.nil_append, List.length_cons,
    List.length_append, List.getD_cons_zero, List.getD_cons_succ]
  rw [if_neg (by omega), hid4, hlen4]
  rw [if_neg (by simp; omega)]
  simp [List.drop, List.take_length]

/-- C5: for every type code, u32 message id and payload of at most 64 KiB,
`DeserializeMessage (SerializeMessage t id payload)` succeeds and returns
exactly the original type, message id and payload bytes. -/
theorem roundtrip_decode_encode (t id : Nat) (data : List Nat)
    (ht : t < 256) (hid : id < 2 ^ 32) (hlen : data.length ≤ 64 * 1024) :
    DeserializeMessage (SerializeMessage t id data) =
      ({ type := t, version := 1, messageID := id, length := data.length },
        some data, none) :=
  DeserializeMessage_SerializeMessage t id data ht hid (by omega)

theorem roundtrip_decode_encode_witness :
    (3 : Nat) < 256 ∧ (123 : Nat) < 2 ^ 32 ∧ ([7, 8, 9] : List Nat).length ≤ 64 * 1024 ∧
      DeserializeMessage (SerializeMessage 3 123 [7, 8, 9]) =
        ({ type := 3, version := 1, messageID := 123, length := 3 },
          some [7, 8, 9], none) :=
  ⟨by decide, by decide, by decide,
    roundtrip_decode_encode 3 123 [7, 8, 9] (by decide) (by decide) (by decide)⟩

theorem deserializeHeader_serialize_length_mod (t id : Nat) (data : List Nat) :
    (DeserializeHeader (SerializeMessage t id data)).1.length =
      data.length % 2 ^ 32 := by
  have hlen4 := readUint32BE_putUint32BE (data.length % 2 ^ 32)
    (Nat.mod_lt _ (by norm_num))
  simp only [SerializeMessage, DeserializeHeader, putUint32BE,
    List.cons_append, List.nil_append, List.length_cons,
    List.length_append, List.getD_cons_zero, List.getD_cons_succ]
  rw [if_neg (by omega)]
  exact hlen4

/-- C8 (amended): the `length` header field of an encoded frame equals the
payload byte count whenever the payload is shorter than 2^32 bytes; the Go
`uint32` conversion truncates it modulo 2^32 beyond that. -/
theorem header_length_field_exact (t id : Nat) (data : List Nat)
    (hlen : data.length < 2 ^ 32) :
    (DeserializeHeader (SerializeMessage t id data)).1.length = data.length := by
  rw [deserializeHeader_serialize_length_mod]
  exact Nat.mod_eq_of_lt hlen

theorem header_length_field_exact_witness :
    ([5, 6] : List Nat).length < 2 ^ 32 ∧
      (DeserializeHeader (SerializeMessage 1 0 [5, 6])).1.length = 2 :=
  ⟨by decide, header_length_field_exact 1 0 [5, 6] (by decide)⟩

/-- C8 counterexample: for a payload of 2^32 bytes the encoded `length`
field is 0, not the payload byte count — the claim fails for payloads of
"any size". -/
theorem header_length_field_exact_cex :
    (DeserializeHeader
        (SerializeMessage 1 0 (List.replicate (2 ^ 32) 0))).1.length ≠
      (List.replicate (2 ^ 32) (0 : Nat)).length := by
  have h := deserializeHeader_serialize_length_mod 1 0
    (List.replicate (2 ^ 32) 0)
  rw [List.length_replicate] at h
  rw [h, List.length_replicate]
  norm_num

/-- C2 (amended): when at least 10 bytes arrive but the declared payload
length exceeds the bytes available after the header, `DeserializeMessage`
does not error: it returns the parsed header with a nil payload and a nil
error (a silent header-only result). -/
theorem truncated_frame_returns_header_only (data : List Nat)
    (h10 : 10 ≤ data.length)
    (hshort : data.length < 10 + (DeserializeHeader data).1.length) :
    DeserializeMessage data = ((DeserializeHeader data).1, none, none) := by
  rw [DeserializeHeader, if_neg (by omega)] at hshort ⊢
  rw [DeserializeMessage, if_neg (by omega), if_pos hshort]

theorem truncated_frame_returns_header_only_witness :
    10 ≤ ([1, 1, 0, 0, 0, 1, 0, 0, 0, 100, 9, 9, 9, 9, 9, 9, 9, 9, 9, 9] :
        List Nat).length ∧
      ([1, 1, 0, 0, 0, 1, 0, 0, 0, 100, 9, 9, 9, 9, 9, 9, 9, 9, 9, 9] :
        List Nat).length <
        10 + (DeserializeHeader
          [1, 1, 0, 0, 0, 1, 0, 0, 0, 100, 9, 9, 9, 9, 9, 9, 9, 9, 9, 9]).1.length ∧
      DeserializeMessage
          [1, 1, 0, 0, 0, 1, 0, 0, 0, 100, 9, 9, 9, 9, 9, 9, 9, 9, 9, 9] =
        ((DeserializeHeader
          [1, 1, 0, 0, 0, 1, 0, 0, 0, 100, 9, 9, 9, 9, 9, 9, 9, 9, 9, 9]).1,
          none, none) :=
  ⟨by decide, by decide,
    truncated_frame_returns_header_only _ (by decide) (by decide)⟩

/-- C2 counterexample: a frame declaring `length = 100` with only 10 payload
bytes supplied makes `DeserializeMessage` return a nil error (and a nil
payload), contradicting the claim that it fails with an error. -/
theorem truncated_frame_returns_header_only_cex :
    ([1, 1, 0, 0, 0, 1, 0, 0, 0, 100, 9, 9, 9, 9, 9, 9, 9, 9, 9, 9] :
        List Nat).length = 20 ∧
      (DeserializeHeader
        [1, 1, 0, 0, 0, 1, 0, 0, 0, 100, 9, 9, 9, 9, 9, 9, 9, 9, 9, 9]).1.length =
        100 ∧
      (DeserializeMessage
        [1, 1, 0, 0, 0, 1, 0, 0, 0, 100, 9, 9, 9, 9, 9, 9, 9, 9, 9, 9]).2.2 =
        none := by
  decide

/-- C10: when strictly more than `10 + L` bytes are supplied, where `L` is
the declared header length, decoding succeeds with exactly the `L` bytes at
offsets `10 .. 10+L-1` as payload, and trailing bytes cause no error. -/
theorem deserializeHeader_of_le (data : List Nat) (h : 10 ≤ data.length) :
    DeserializeHeader data =
      ({ type := data.getD 0 0
         version := data.getD 1 0
         messageID := readUint32BE (data.getD 2 0) (data.getD 3 0)
           (data.getD 4 0) (data.getD 5 0)
         length := readUint32BE (data.getD 6 0) (data.getD 7 0)
           (data.getD 8 0) (data.getD 9 0) }, none) := by
  rw [DeserializeHeader, if_neg (by omega)]

theorem trailing_bytes_ignored (data : List Nat)
    (h : 10 + (DeserializeHeader data).1.length < data.length) :
    ∃ hdr payload,
      DeserializeHeader data = (hdr, none) ∧
      DeserializeMessage data = (hdr, some payload, none) ∧
      payload.length = hdr.length ∧
      ∀ i, i < hdr.length → payload.getD i 0 = data.getD (10 + i) 0 := by
  have h10 : 10 ≤ data.length := by omega
  rw [deserializeHeader_of_le data h10] at h
  dsimp only at h
  refine ⟨_, (data.drop 10).take (readUint32BE (data.getD 6 0) (data.getD 7 0)
    (data.getD 8 0) (data.getD 9 0)), deserializeHeader_of_le data h10, ?_, ?_, ?_⟩
  · rw [DeserializeMessage, if_neg (by omega)]
    dsimp only
    rw [if_neg (by omega)]
  · dsimp only
    simp only [List.length_take, List.length_drop]
    omega
  · intro i hi
    dsimp only at hi
    simp only [List.getD_eq_getElem?_getD, List.getElem?_take,
      List.getElem?_drop] at hi ⊢
    rw [if_pos hi]

theorem trailing_bytes_ignored_witness :
    10 + (DeserializeHeader
        ([2, 1, 0, 0, 0, 7, 0, 0, 0, 2, 41, 42, 91, 92, 93] : List Nat)).1.length <
      ([2, 1, 0, 0, 0, 7, 0, 0, 0, 2, 41, 42, 91, 92, 93] : List Nat).length ∧
    ∃ hdr payload,
      DeserializeHeader [2, 1, 0, 0, 0, 7, 0, 0, 0, 2, 41, 42, 91, 92, 93] =
        (hdr, none) ∧
      DeserializeMessage [2, 1, 0, 0, 0, 7, 0, 0, 0, 2, 41, 42, 91, 92, 93] =
        (hdr, some payload, none) ∧
      payload.length = hdr.length ∧
      ∀ i, i < hdr.length →
        payload.getD i 0 =
          ([2, 1, 0, 0, 0, 7, 0, 0, 0, 2, 41, 42, 91, 92, 93] : List Nat).getD
            (10 + i) 0 :=
  ⟨by decide, trailing_bytes_ignored _ (by decide)⟩

/-! ## Password verification (src/internal/common/crypto/crypto.go)

`VerifyPassword` base64-decodes the stored salt, re-derives the key with
PBKDF2 and compares base64 encodings.  The PBKDF2 primitive
(`pbkdf2.Key(password, salt, 10000, 32, sha256.New)`) is external library
code and is passed in as a parameter `pbkdf2Key`; Go's
`encoding/base64` standard encoding is embedded below. -/

/-- The standard base64 alphabet used by `base64.StdEncoding`. -/
def base64Chars : List Char :=
  "ABCDEFGHIJKLMNOPQRSTUVWXYZabcdefghijklmnopqrstuvwxyz0123456789+/".toList

/-- Index of a character in the standard base64 alphabet, `none` for
characters outside it (including the padding character). -/
def b64Index (c : Char) : Option Nat :=
  base64Chars.indexOf? c

/-- Encoding side of `base64.StdEncoding`: 3-byte groups become 4 alphabet
characters; a trailing group of 1 or 2 bytes is padded with `=`. -/
def base64EncodeGroups : List Nat → List Char
  | b0 :: b1 :: b2 :: rest =>
    base64Chars.getD (b0 / 4) 'A' ::
    base64Chars.getD (b0 % 4 * 16 + b1 / 16) 'A' ::
    base64Chars.getD (b1 % 16 * 4 + b2 / 64) 'A' ::
    base64Chars.getD (b2 % 64) 'A' ::
    base64EncodeGroups rest
  | [b0, b1] =>
    [base64Chars.getD (b0 / 4) 'A',
     base64Chars.getD (b0 % 4 * 16 + b1 / 16) 'A',
     base64Chars.getD (b1 % 16 * 4) 'A', '=']
  | [b0] =>
    [base64Chars.getD (b0 / 4) 'A',
     base64Chars.getD (b0 % 4 * 16) 'A', '=', '=']
  | [] => []

/-- `base64.StdEncoding.EncodeToString`. -/
def EncodeToString (bs : List Nat) : String :=
  String.mk (base64EncodeGroups bs)

/-- Decoding side of `base64.StdEncoding`: strict 4-character quanta; `=`
padding only at the end of the final quantum; any other character outside
the alphabet is an error (`none`). -/
def base64DecodeGroups : List Char → Option (List Nat)
  | [] => some []
  | c0 :: c1 :: c2 :: c3 :: rest =>
    match b64Index c0, b64Index c1, b64Index c2, b64Index c3 with
    | some a, some b, some c, some d =>
      (base64DecodeGroups rest).map
        (fun tail =>
          (a * 4 + b / 16) :: (b % 16 * 16 + c / 4) :: (c % 4 * 64 + d) :: tail)
    | some a, some b, some c, none =>
      if c3 = '=' ∧ rest = [] then
        some [a * 4 + b / 16, b % 16 * 16 + c / 4]
      else none
    | some a, some b, none, none =>
      if c2 = '=' ∧ c3 = '=' ∧ rest = [] then some [a * 4 + b / 16] else none
    | _, _, _, _ => none
  | _ => none

/-- `base64.StdEncoding.DecodeString`: `\r` and `\n` are skipped, then the
input is decoded in 4-character quanta; `none` models the
`CorruptInputError` return. -/
def DecodeString (s : String) : Option (List Nat) :=
  base64DecodeGroups (s.toList.filter (fun c => c != '\r' && c != '\n'))

/-- `VerifyPassword(password, storedHash, storedSalt string) bool`:
returns `false` if the stored salt is not valid base64, otherwise
re-derives the key with the stored salt and compares base64 encodings. -/
def VerifyPassword (pbkdf2Key : String → List Nat → List Nat)
    (password storedHash storedSalt : String) : Bool :=
  match DecodeString storedSalt with
  | none => false
  | some salt => EncodeToString (pbkdf2Key password salt) == storedHash

/-! ## Database layer (src/internal/server/database.go)

The PostgreSQL pool is external; the `users` table behind
`SELECT ... WHERE username = $1` is modelled as a list of rows, with
`QueryRow` returning the first match and `pgx.ErrNoRows` when absent.
Transport-level query failures are outside the model (they are injectable
through the dispatcher's environment instead). -/

structure UserRow where
  id : Int
  username : String
  passwordHash : String
  passwordSalt : String
  deriving DecidableEq, Repr

abbrev UsersTable := List UserRow

/-- `QueryRow("SELECT ... FROM users WHERE username = $1", username)`. -/
def queryUserByName (db : UsersTable) (username : String) : Option UserRow :=
  db.find? (fun r => r.username == username)

/-- `Database.AuthenticateUser`: `pgx.ErrNoRows` becomes `(false, nil)`;
a found row is checked with `crypto.VerifyPassword`. -/
def AuthenticateUser (pbkdf2Key : String → List Nat → List Nat)
    (db : UsersTable) (username password : String) : Except String Bool :=
  match queryUserByName db username with
  | none => .ok false
  | some row =>
    .ok (VerifyPassword pbkdf2Key password row.passwordHash row.passwordSalt)

/-- `Database.GetUserID`: `SELECT id FROM users WHERE username = $1`;
errors when no row matches. -/
def GetUserID (db : UsersTable) (username : String) : Except String Int :=
  match queryUserByName db username with
  | none => .error "no rows in result set"
  | some row => .ok row.id

/-! ## Session handler / dispatcher (src/unnamed/part_001, package server)

`ClientHandler` is embedded as an explicit session state plus a list of
sent responses and a list of storage-gateway calls per dispatched message.
JSON payload parsing (`json.Unmarshal` / the protocol Deserialize helpers)
and the `Database` methods are external to the dispatcher and are supplied
through an environment record mirroring their call signatures; `time.Time`
values are opaque to the dispatcher and modelled as `Int`. -/

/-- `time.Time` as an opaque totally-ordered value (Unix nanoseconds). -/
abbrev GoTime := Int

structure AuthRequest where
  username : String
  password : String
  deriving DecidableEq, Repr

structure RegisterRequest where
  username : String
  password : String
  deriving DecidableEq, Repr

structure SyncRequest where
  lastSync : GoTime
  deriving DecidableEq, Repr

structure DataRequest where
  itemID : String
  deriving DecidableEq, Repr

structure NewDataItem where
  type : Nat
  name : String
  data : List Nat
  metadata : List (String × String)
  deriving DecidableEq, Repr

structure SaveDataRequest where
  item : NewDataItem
  deriving DecidableEq, Repr

structure DeleteDataRequest where
  itemID : String
  deriving DecidableEq, Repr

structure UpdateDataRequest where
  itemID : String
  item : NewDataItem
  deriving DecidableEq, Repr

structure DownloadRequest where
  itemID : String
  deriving DecidableEq, Repr

structure DataItem where
  id : String
  type : Nat
  name : String
  data : List Nat
  metadata : List (String × String)
  createdAt : GoTime
  updatedAt : GoTime
  deriving DecidableEq, Repr

/-- The closed set of response bodies passed to `sendResponse`. -/
inductive Response where
  | authResponse (success : Bool) (token : String)
  | registerResponse (success : Bool) (message : String)
  | syncResponse (items : List DataItem)
  | dataResponse (item : DataItem)
  | saveDataResponse (success : Bool) (message : String) (itemID : String)
  | deleteDataResponse (success : Bool) (message : String)
  | updateDataResponse (success : Bool) (message : String)
  | downloadResponse (success : Bool) (data : List Nat) (message : String)
  deriving DecidableEq, Repr

/-- One write-back to the client: either a typed response frame or an
`ErrorResponse{code, message}` frame (type `MsgTypeError`), each carrying
the connection-local outbound message id it was framed with. -/
inductive Sent where
  | response (msgType : Nat) (messageID : Nat) (resp : Response)
  | errorResponse (messageID : Nat) (code : Nat) (message : String)
  deriving DecidableEq, Repr

/-- One call into the storage gateway (`Database` methods). -/
inductive GatewayCall where
  | authenticateUser (username password : String)
  | getUserID (username : String)
  | createUser (username password : String)
  | getData (userID : Int) (lastSync : GoTime)
  | getDataByID (userID : Int) (itemID : String)
  | storeData (userID : Int) (item : NewDataItem)
  | deleteData (userID : Int) (itemID : String)
  | updateData (userID : Int) (itemID : String) (item : NewDataItem)
  deriving DecidableEq, Repr

/-- The mutable per-connection fields of `ClientHandler`:
`username`, `userID` and the outbound `messageID` (a Go `uint32`). -/
structure Session where
  username : String
  userID : Int
  messageID : Nat
  deriving DecidableEq, Repr

/-- `NewClientHandler`: all session fields start at their zero values. -/
def newSession : Session := { username := "", userID := 0, messageID := 0 }

/-- The observable outcome of dispatching one message: the new session
state, the responses written back, and the gateway calls performed. -/
structure StepResult where
  state : Session
  sent : List Sent
  calls : List GatewayCall
  deriving DecidableEq, Repr

/-- External collaborators of the dispatcher: the JSON request parsers and
the `Database` gateway methods, each with its Go call signature. -/
structure Env where
  parseAuthRequest : List Nat → Except String AuthRequest
  parseRegisterRequest : List Nat → Except String RegisterRequest
  parseSyncRequest : List Nat → Except String SyncRequest
  parseDataRequest : List Nat → Except String DataRequest
  parseSaveDataRequest : List Nat → Except String SaveDataRequest
  parseDeleteDataRequest : List Nat → Except String DeleteDataRequest
  parseUpdateDataRequest : List Nat → Except String UpdateDataRequest
  parseDownloadRequest : List Nat → Except String DownloadRequest
  authenticateUser : String → String → Except String Bool
  getUserID : String → Except String Int
  createUser : String → String → Except String Unit
  getData : Int → GoTime → Except String (List DataItem)
  getDataByID : Int → String → Except String DataItem
  storeData : Int → NewDataItem → Except String Unit
  deleteData : Int → String → Except String Unit
  updateData : Int → String → NewDataItem → Except String Unit

/-- `sendError`: frames `ErrorResponse{500, message}` with the current
outbound message id, then increments it (uint32 wrap-around). -/
def sendError (s : Session) (message : String) : Session × Sent :=
  ({ s with messageID := (s.messageID + 1) % 2 ^ 32 },
    .errorResponse s.messageID 500 message)

/-- `sendResponse`: serializes the response (always succeeds for the closed
response set) and frames it with the current outbound message id, then
increments it. -/
def sendResponse (s : Session) (msgType : Nat) (resp : Response) :
    Session × Sent :=
  ({ s with messageID := (s.messageID + 1) % 2 ^ 32 },
    .response msgType s.messageID resp)

/-- A handler return that ends in one `sendError` write, after the listed
gateway calls. -/
def errorStep (s : Session) (message : String) (calls : List GatewayCall) :
    StepResult :=
  ⟨(sendError s message).1, [(sendError s message).2], calls⟩

/-- A handler return that ends in one `sendResponse` write, after the
listed gateway calls. -/
def responseStep (s : Session) (msgType : Nat) (resp : Response)
    (calls : List GatewayCall) : StepResult :=
  ⟨(sendResponse s msgType resp).1, [(sendResponse s msgType resp).2], calls⟩

/-- `ClientHandler.handleAuthRequest`: parse, authenticate; on success set
`username`, fetch and set `userID`, answer `AuthResponse{true, token}`. -/
def handleAuthRequest (env : Env) (s : Session) (payload : List Nat) :
    StepResult :=
  match env.parseAuthRequest payload with
  | .error _ =>
    errorStep s "Invalid auth request format"
      []
  | .ok req =>
    match env.authenticateUser req.username req.password with
    | .error _ =>
      errorStep s "Authentication error"
        [.authenticateUser req.username req.password]
    | .ok false =>
      errorStep s "Authentication failed: invalid credentials"
        [.authenticateUser req.username req.password]
    | .ok true =>
      let sU := { s with username := req.username }
      match env.getUserID req.username with
      | .error _ =>
        errorStep sU "User not found"
          [.authenticateUser req.username req.password, .getUserID req.username]
      | .ok uid =>
        responseStep { sU with userID := uid } MsgTypeAuthResponse (.authResponse true "dummy-token")
          [.authenticateUser req.username req.password, .getUserID req.username]

/-- `ClientHandler.handleRegisterRequest`: parse, create the user, answer
`RegisterResponse`; registration does not touch `username`/`userID`. -/
def handleRegisterRequest (env : Env) (s : Session) (payload : List Nat) :
    StepResult :=
  match env.parseRegisterRequest payload with
  | .error _ =>
    errorStep s "Invalid register request format"
      []
  | .ok req =>
    match env.createUser req.username req.password with
    | .error e =>
      errorStep s ("Registration failed: " ++ e)
        [.createUser req.username req.password]
    | .ok _ =>
      responseStep s MsgTypeRegisterResponse (.registerResponse true "User registered successfully")
        [.createUser req.username req.password]

/-- `ClientHandler.handleSyncRequest`: rejects unauthenticated sessions
before parsing or touching the gateway. -/
def handleSyncRequest (env : Env) (s : Session) (payload : List Nat) :
    StepResult :=
  if s.userID = 0 then
    errorStep s "Not authenticated"
      []
  else
    match env.parseSyncRequest payload with
    | .error _ =>
      errorStep s "Invalid sync request format"
        []
    | .ok req =>
      match env.getData s.userID req.lastSync with
      | .error _ =>
        errorStep s "Failed to get data"
          [.getData s.userID req.lastSync]
      | .ok items =>
        responseStep s MsgTypeSyncResponse (.syncResponse items)
          [.getData s.userID req.lastSync]

/-- `ClientHandler.handleDataRequest`. -/
def handleDataRequest (env : Env) (s : Session) (payload : List Nat) :
    StepResult :=
  if s.userID = 0 then
    errorStep s "Not authenticated"
      []
  else
    match env.parseDataRequest payload with
    | .error _ =>
      errorStep s "Invalid data request format"
        []
    | .ok req =>
      match env.getDataByID s.userID req.itemID with
      | .error _ =>
        errorStep s "Data not found"
          [.getDataByID s.userID req.itemID]
      | .ok item =>
        responseStep s MsgTypeDataResponse (.dataResponse item)
          [.getDataByID s.userID req.itemID]

/-- `ClientHandler.handleSaveDataRequest`. -/
def handleSaveDataRequest (env : Env) (s : Session) (payload : List Nat) :
    StepResult :=
  if s.userID = 0 then
    errorStep s "Not authenticated"
      []
  else
    match env.parseSaveDataRequest payload with
    | .error _ =>
      errorStep s "Invalid save data request format"
        []
    | .ok req =>
      match env.storeData s.userID req.item with
      | .error e =>
        errorStep s ("Failed to store data: " ++ e)
          [.storeData s.userID req.item]
      | .ok _ =>
        responseStep s MsgTypeSaveDataResponse (.saveDataResponse true "Data saved successfully" "")
          [.storeData s.userID req.item]

/-- `ClientHandler.handleDeleteDataRequest`. -/
def handleDeleteDataRequest (env : Env) (s : Session) (payload : List Nat) :
    StepResult :=
  if s.userID = 0 then
    errorStep s "Not authenticated"
      []
  else
    match env.parseDeleteDataRequest payload with
    | .error _ =>
      errorStep s "Invalid delete data request format"
        []
    | .ok req =>
      match env.deleteData s.userID req.itemID with
      | .error e =>
        errorStep s ("Failed to delete data: " ++ e)
          [.deleteData s.userID req.itemID]
      | .ok _ =>
        responseStep s MsgTypeDeleteDataResponse (.deleteDataResponse true "Data deleted successfully")
          [.deleteData s.userID req.itemID]

/-- `ClientHandler.handleUpdateDataRequest`. -/
def handleUpdateDataRequest (env : Env) (s : Session) (payload : List Nat) :
    StepResult :=
  if s.userID = 0 then
    errorStep s "Not authenticated"
      []
  else
    match env.parseUpdateDataRequest payload with
    | .error _ =>
      errorStep s "Invalid update data request format"
        []
    | .ok req =>
      match env.updateData s.userID req.itemID req.item with
      | .error e =>
        errorStep s ("Failed to update data: " ++ e)
          [.updateData s.userID req.itemID req.item]
      | .ok _ =>
        responseStep s MsgTypeUpdateDataResponse (.updateDataResponse true "Data updated successfully")
          [.updateData s.userID req.itemID req.item]

/-- `ClientHandler.handleDownloadRequest`. -/
def handleDownloadRequest (env : Env) (s : Session) (payload : List Nat) :
    StepResult :=
  if s.userID = 0 then
    errorStep s "Not authenticated"
      []
  else
    match env.parseDownloadRequest payload with
    | .error _ =>
      errorStep s "Invalid download request format"
        []
    | .ok req =>
      match env.getDataByID s.userID req.itemID with
      | .error _ =>
        errorStep s "Data not found"
          [.getDataByID s.userID req.itemID]
      | .ok item =>
        responseStep s MsgTypeDownloadResponse (.downloadResponse true item.data "Download successful")
          [.getDataByID s.userID req.itemID]

/-- `ClientHandler.handleMessage`: the type-code switch routing one inbound
message; unknown codes answer "Unknown message type". -/
def handleMessage (env : Env) (s : Session) (msgType : Nat)
    (payload : List Nat) : StepResult :=
  if msgType = MsgTypeAuthRequest then handleAuthRequest env s payload
  else if msgType = MsgTypeRegisterRequest then
    handleRegisterRequest env s payload
  else if msgType = MsgTypeSyncRequest then handleSyncRequest env s payload
  else if msgType = MsgTypeDataRequest then handleDataRequest env s payload
  else if msgType = MsgTypeSaveDataRequest then
    handleSaveDataRequest env s payload
  else if msgType = MsgTypeDeleteDataRequest then
    handleDeleteDataRequest env s payload
  else if msgType = MsgTypeUpdateDataRequest then
    handleUpdateDataRequest env s payload
  else if msgType = MsgTypeDownloadRequest then
    handleDownloadRequest env s payload
  else
    errorStep s "Unknown message type"
      []

/-- The session state reached after dispatching a sequence of messages
(the read loop of `ClientHandler.Handle`, one full frame per iteration). -/
def runTrace (env : Env) (s : Session) (msgs : List (Nat × List Nat)) :
    Session :=
  msgs.foldl (fun st m => (handleMessage env st m.1 m.2).state) s

/-- Whether dispatching `(msgType, payload)` is an `AuthRequest` that
verifies successfully (parses and the gateway answers `(true, nil)`). -/
def authSuccess (env : Env) (msgType : Nat) (payload : List Nat) : Bool :=
  msgType == MsgTypeAuthRequest &&
    (match env.parseAuthRequest payload with
     | .ok req =>
       (match env.authenticateUser req.username req.password with
        | .ok b => b
        | .error _ => false)
     | .error _ => false)

/-! ## Dispatcher lemmas -/

theorem handleRegisterRequest_preserves_identity (env : Env) (s : Session)
    (p : List Nat) :
    (handleRegisterRequest env s p).state.username = s.username ∧
      (handleRegisterRequest env s p).state.userID = s.userID := by
  unfold handleRegisterRequest errorStep responseStep sendError sendResponse
  repeat' split
  all_goals simp

theorem handleSyncRequest_preserves_identity (env : Env) (s : Session)
    (p : List Nat) :
    (handleSyncRequest env s p).state.username = s.username ∧
      (handleSyncRequest env s p).state.userID = s.userID := by
  unfold handleSyncRequest errorStep responseStep sendError sendResponse
  repeat' split
  all_goals simp

theorem handleDataRequest_preserves_identity (env : Env) (s : Session)
    (p : List Nat) :
    (handleDataRequest env s p).state.username = s.username ∧
      (handleDataRequest env s p).state.userID = s.userID := by
  unfold handleDataRequest errorStep responseStep sendError sendResponse
  repeat' split
  all_goals simp

theorem handleSaveDataRequest_preserves_identity (env : Env) (s : Session)
    (p : List Nat) :
    (handleSaveDataRequest env s p).state.username = s.username ∧
      (handleSaveDataRequest env s p).state.userID = s.userID := by
  unfold handleSaveDataRequest errorStep responseStep sendError sendResponse
  repeat' split
  all_goals simp

theorem handleDeleteDataRequest_preserves_identity (env : Env) (s : Session)
    (p : List Nat) :
    (handleDeleteDataRequest env s p).state.username = s.username ∧
      (handleDeleteDataRequest env s p).state.userID = s.userID := by
  unfold handleDeleteDataRequest errorStep responseStep sendError sendResponse
  repeat' split
  all_goals simp

theorem handleUpdateDataRequest_preserves_identity (env : Env) (s : Session)
    (p : List Nat) :
    (handleUpdateDataRequest env s p).state.username = s.username ∧
      (handleUpdateDataRequest env s p).state.userID = s.userID := by
  unfold handleUpdateDataRequest errorStep responseStep sendError sendResponse
  repeat' split
  all_goals simp

theorem handleDownloadRequest_preserves_identity (env : Env) (s : Session)
    (p : List Nat) :
    (handleDownloadRequest env s p).state.username = s.username ∧
      (handleDownloadRequest env s p).state.userID = s.userID := by
  unfold handleDownloadRequest errorStep responseStep sendError sendResponse
  repeat' split
  all_goals simp

theorem handleMessage_preserves_identity_of_ne_auth (env : Env) (s : Session)
    (t : Nat) (p : List Nat) (ht : t ≠ MsgTypeAuthRequest) :
    (handleMessage env s t p).state.username = s.username ∧
      (handleMessage env s t p).state.userID = s.userID := by
  unfold handleMessage
  split_ifs with h1 h2 h3 h4 h5 h6 h7 h8
  · exact absurd h1 ht
  · exact handleRegisterRequest_preserves_identity env s p
  · exact handleSyncRequest_preserves_identity env s p
  · exact handleDataRequest_preserves_identity env s p
  · exact handleSaveDataRequest_preserves_identity env s p
  · exact handleDeleteDataRequest_preserves_identity env s p
  · exact handleUpdateDataRequest_preserves_identity env s p
  · exact handleDownloadRequest_preserves_identity env s p
  · simp [errorStep, sendError]

theorem handleMessage_userID_of_not_authSuccess (env : Env) (s : Session)
    (t : Nat) (p : List Nat) (h : authSuccess env t p = false) :
    (handleMessage env s t p).state.userID = s.userID := by
  by_cases ht : t = MsgTypeAuthRequest
  · subst ht
    rw [authSuccess] at h
    simp only [beq_self_eq_true, Bool.true_and] at h
    rw [handleMessage, if_pos rfl, handleAuthRequest]
    split
    · simp [errorStep, sendError]
    · rename_i req hp
      rw [hp] at h
      dsimp only at h
      split
      · simp [errorStep, sendError]
      · simp [errorStep, sendError]
      · rename_i ha
        rw [ha] at h
        simp at h
  · exact (handleMessage_preserves_identity_of_ne_auth env s t p ht).2

theorem runTrace_userID_zero (env : Env) (msgs : List (Nat × List Nat))
    (htrace : ∀ m ∈ msgs, authSuccess env m.1 m.2 = false) :
    ∀ s : Session, s.userID = 0 → (runTrace env s msgs).userID = 0 := by
  induction msgs with
  | nil => intro s hs; exact hs
  | cons m rest ih =>
    intro s hs
    have hm : authSuccess env m.1 m.2 = false := htrace m (by simp)
    have hrest : ∀ x ∈ rest, authSuccess env x.1 x.2 = false :=
      fun x hx => htrace x (by simp [hx])
    rw [runTrace, List.foldl_cons]
    refine ih hrest _ ?_
    rw [handleMessage_userID_of_not_authSuccess env s m.1 m.2 hm]
    exact hs

/-! ## Concrete environments used by witnesses -/

/-- A minimal concrete environment: every parser fails and the gateway
returns fixed values. -/
def trivialEnv : Env where
  parseAuthRequest := fun _ => .error "bad payload"
  parseRegisterRequest := fun _ => .error "bad payload"
  parseSyncRequest := fun _ => .error "bad payload"
  parseDataRequest := fun _ => .error "bad payload"
  parseSaveDataRequest := fun _ => .error "bad payload"
  parseDeleteDataRequest := fun _ => .error "bad payload"
  parseUpdateDataRequest := fun _ => .error "bad payload"
  parseDownloadRequest := fun _ => .error "bad payload"
  authenticateUser := fun _ _ => .ok false
  getUserID := fun _ => .error "no rows in result set"
  createUser := fun _ _ => .ok ()
  getData := fun _ _ => .ok []
  getDataByID := fun _ _ => .error "no rows in result set"
  storeData := fun _ _ => .ok ()
  deleteData := fun _ _ => .ok ()
  updateData := fun _ _ _ => .ok ()

/-- Environment in which every auth attempt verifies: payload `[1]` parses
as alice (user id 1), anything else as bob (user id 2). -/
def twoUserEnv : Env :=
  { trivialEnv with
      parseAuthRequest := fun p =>
        if p = [1] then .ok ⟨"alice", "pa"⟩ else .ok ⟨"bob", "pb"⟩
      authenticateUser := fun _ _ => .ok true
      getUserID := fun u => if u = "alice" then .ok 1 else .ok 2 }

/-- A degenerate key-derivation function for witnesses. -/
def zeroKdf : String → List Nat → List Nat := fun _ _ => []

/-- Environment whose auth parser always yields alice's credentials. -/
def parseAliceEnv : Env :=
  { trivialEnv with parseAuthRequest := fun _ => .ok ⟨"alice", "pw"⟩ }

/-- A stored row for alice whose hash does not match `zeroKdf`'s output. -/
def aliceRow : UserRow :=
  { id := 1, username := "alice", passwordHash := "stored-hash",
    passwordSalt := "AAAA" }

/-! ## Claims about the dispatcher -/

/-- C1: in a session in which no AuthRequest has verified successfully,
dispatching any of the six protected message types answers the error
"Not authenticated" and performs no storage-gateway call. -/
theorem auth_gating_unauthenticated (env : Env) (msgs : List (Nat × List Nat))
    (htrace : ∀ m ∈ msgs, authSuccess env m.1 m.2 = false) (t : Nat)
    (ht : t = MsgTypeSyncRequest ∨ t = MsgTypeDataRequest ∨
      t = MsgTypeSaveDataRequest ∨ t = MsgTypeDeleteDataRequest ∨
      t = MsgTypeUpdateDataRequest ∨ t = MsgTypeDownloadRequest)
    (payload : List Nat) :
    handleMessage env (runTrace env newSession msgs) t payload =
      ⟨{ runTrace env newSession msgs with
          messageID :=
            ((runTrace env newSession msgs).messageID + 1) % 2 ^ 32 },
        [.errorResponse (runTrace env newSession msgs).messageID 500
          "Not authenticated"], []⟩ := by
  have h0 : (runTrace env newSession msgs).userID = 0 :=
    runTrace_userID_zero env msgs htrace newSession rfl
  rcases ht with h | h | h | h | h | h <;> subst h <;>
    simp [handleMessage, MsgTypeAuthRequest, MsgTypeRegisterRequest,
      MsgTypeSyncRequest, MsgTypeDataRequest, MsgTypeSaveDataRequest,
      MsgTypeDeleteDataRequest, MsgTypeUpdateDataRequest,
      MsgTypeDownloadRequest, handleSyncRequest, handleDataRequest,
      handleSaveDataRequest, handleDeleteDataRequest,
      handleUpdateDataRequest, handleDownloadRequest, h0, errorStep,
      sendError]

theorem auth_gating_unauthenticated_witness :
    (∀ m ∈ ([(MsgTypeAuthRequest, [0]), (MsgTypeRegisterRequest, [1])] :
        List (Nat × List Nat)), authSuccess trivialEnv m.1 m.2 = false) ∧
      handleMessage trivialEnv
          (runTrace trivialEnv newSession
            [(MsgTypeAuthRequest, [0]), (MsgTypeRegisterRequest, [1])])
          MsgTypeSyncRequest [] =
        ⟨{ runTrace trivialEnv newSession
              [(MsgTypeAuthRequest, [0]), (MsgTypeRegisterRequest, [1])] with
            messageID :=
              ((runTrace trivialEnv newSession
                [(MsgTypeAuthRequest, [0]),
                  (MsgTypeRegisterRequest, [1])]).messageID + 1) % 2 ^ 32 },
          [.errorResponse
            (runTrace trivialEnv newSession
              [(MsgTypeAuthRequest, [0]),
                (MsgTypeRegisterRequest, [1])]).messageID 500
            "Not authenticated"], []⟩ :=
  ⟨by decide,
    auth_gating_unauthenticated trivialEnv
      [(MsgTypeAuthRequest, [0]), (MsgTypeRegisterRequest, [1])] (by decide)
      MsgTypeSyncRequest (Or.inl rfl) []⟩

/-- C3 counterexample: a second successful AuthRequest with different
credentials overwrites `username`/`userID` set by the first one, so the
fields are not assigned exactly once for the connection's lifetime. -/
theorem session_identity_set_once_cex :
    (runTrace twoUserEnv newSession
        [(MsgTypeAuthRequest, [1])]).username = "alice" ∧
    (runTrace twoUserEnv newSession [(MsgTypeAuthRequest, [1])]).userID = 1 ∧
    (runTrace twoUserEnv newSession
        [(MsgTypeAuthRequest, [1]), (MsgTypeAuthRequest, [2])]).username =
      "bob" ∧
    (runTrace twoUserEnv newSession
        [(MsgTypeAuthRequest, [1]), (MsgTypeAuthRequest, [2])]).userID = 2 := by
  decide

/-- C3 (amended): `username`/`userID` are assigned on every successful
AuthRequest (a later successful AuthRequest with different credentials
overwrites them), and no message type other than AuthRequest ever changes
them. -/
theorem session_identity_assignment (env : Env) (s : Session) (t : Nat)
    (payload : List Nat) :
    (t ≠ MsgTypeAuthRequest →
      (handleMessage env s t payload).state.username = s.username ∧
      (handleMessage env s t payload).state.userID = s.userID) ∧
    (∀ req uid, t = MsgTypeAuthRequest →
      env.parseAuthRequest payload = .ok req →
      env.authenticateUser req.username req.password = .ok true →
      env.getUserID req.username = .ok uid →
      (handleMessage env s t payload).state.username = req.username ∧
      (handleMessage env s t payload).state.userID = uid) := by
  constructor
  · exact fun ht => handleMessage_preserves_identity_of_ne_auth env s t payload ht
  · intro req uid ht hp ha hg
    subst ht
    simp [handleMessage, handleAuthRequest, hp, ha, hg, responseStep,
      sendResponse]

theorem session_identity_assignment_witness :
    ((handleMessage twoUserEnv newSession MsgTypeRegisterRequest
        []).state.username = "" ∧
      (handleMessage twoUserEnv newSession MsgTypeRegisterRequest
        []).state.userID = 0) ∧
    ((handleMessage twoUserEnv newSession MsgTypeAuthRequest
        [1]).state.username = "alice" ∧
      (handleMessage twoUserEnv newSession MsgTypeAuthRequest
        [1]).state.userID = 1) :=
  ⟨(session_identity_assignment twoUserEnv newSession MsgTypeRegisterRequest
      []).1 (by decide),
    (session_identity_assignment twoUserEnv newSession MsgTypeAuthRequest
      [1]).2 ⟨"alice", "pa"⟩ 1 rfl rfl rfl rfl⟩

/-- `ClientHandler` bound to a `Database` over a concrete users table:
the dispatcher environment with the gateway's auth operations given by
`Database.AuthenticateUser` / `Database.GetUserID`. -/
def withDatabase (e : Env) (pbkdf2Key : String → List Nat → List Nat)
    (db : UsersTable) : Env :=
  { e with
      authenticateUser := AuthenticateUser pbkdf2Key db
      getUserID := GetUserID db }

/-- C7: an AuthRequest failing because the username does not exist and one
failing because the password does not verify produce identical runs — same
response ("Authentication failed: invalid credentials"), same state, same
gateway calls — so the client cannot tell whether the username exists. -/
theorem auth_failure_indistinguishable (e : Env)
    (kdf : String → List Nat → List Nat) (db1 db2 : UsersTable)
    (s : Session) (payload : List Nat) (req : AuthRequest) (row : UserRow)
    (hp : e.parseAuthRequest payload = .ok req)
    (h1 : queryUserByName db1 req.username = none)
    (h2 : queryUserByName db2 req.username = some row)
    (hv : VerifyPassword kdf req.password row.passwordHash
      row.passwordSalt = false) :
    handleMessage (withDatabase e kdf db1) s MsgTypeAuthRequest payload =
      handleMessage (withDatabase e kdf db2) s MsgTypeAuthRequest payload ∧
    (handleMessage (withDatabase e kdf db1) s MsgTypeAuthRequest
        payload).sent =
      [.errorResponse s.messageID 500
        "Authentication failed: invalid credentials"] := by
  have hauth1 : AuthenticateUser kdf db1 req.username req.password =
      .ok false := by
    simp [AuthenticateUser, h1]
  have hauth2 : AuthenticateUser kdf db2 req.username req.password =
      .ok false := by
    simp [AuthenticateUser, h2, hv]
  constructor
  · simp [handleMessage, handleAuthRequest, withDatabase, hp, hauth1, hauth2]
  · simp [handleMessage, handleAuthRequest, withDatabase, hp, hauth1,
      errorStep, sendError]

theorem auth_failure_indistinguishable_witness :
    (handleMessage (withDatabase parseAliceEnv zeroKdf []) newSession
        MsgTypeAuthRequest [] =
      handleMessage (withDatabase parseAliceEnv zeroKdf [aliceRow])
        newSession MsgTypeAuthRequest []) ∧
    (handleMessage (withDatabase parseAliceEnv zeroKdf []) newSession
        MsgTypeAuthRequest []).sent =
      [.errorResponse 0 500 "Authentication failed: invalid credentials"] :=
  auth_failure_indistinguishable parseAliceEnv zeroKdf [] [aliceRow]
    newSession [] ⟨"alice", "pw"⟩ aliceRow rfl rfl rfl (by decide)

/-- C9: `VerifyPassword` is a total boolean function; whenever the stored
salt is not valid base64 it returns `false` (for every password, stored
hash and key-derivation function), never an error. -/
theorem verifyPassword_malformed_salt_false
    (kdf : String → List Nat → List Nat)
    (password storedHash storedSalt : String)
    (h : DecodeString storedSalt = none) :
    VerifyPassword kdf password storedHash storedSalt = false := by
  simp [VerifyPassword, h]

theorem verifyPassword_malformed_salt_false_witness :
    DecodeString "%%%" = none ∧
      VerifyPassword zeroKdf "p" "h" "%%%" = false :=
  ⟨by decide,
    verifyPassword_malformed_salt_false zeroKdf "p" "h" "%%%" (by decide)⟩

end PasswordManager
